import Mathlib

/-!
Shallow embedding of the service lifecycle orchestrator implemented in
`scripts/service_utils.py` (class `ServiceUtils`) and
`scripts/simple_deploy.py` (class `SimpleDeployer`).

External effects (the process table, the filesystem, the cargo build
tool, and the HTTP health endpoints) are modelled by an explicit
environment `Env`; Python exceptions raised by those collaborators are
modelled as outcome values, so every embedded operation is a total
function returning its Boolean result together with the trace of
externally visible events (termination signals, build invocations,
staging copies, process launches, health probes) that it issued.
Wall-clock time for the health-wait loop is modelled in 2-second
polling rounds, so the 30-second timeout used by the deploy script
corresponds to 15 rounds.  `time.sleep` calls have no observable
effect and are not modelled.
-/

/-- Static per-service configuration, mirroring one entry of the
`self.services` dict in `ServiceUtils.__init__`. -/
structure ServiceConfig where
  exe : String
  port : Nat
  name : String
deriving DecidableEq

/-- The service registry literal from `ServiceUtils.__init__`
(`self.services`), in source order. -/
def services : List (String × ServiceConfig) :=
  [("api-gateway", ⟨"api-gateway.exe", 8080, "API Gateway"⟩),
   ("user-management", ⟨"user-management.exe", 8082, "User Management"⟩),
   ("chaos-backend", ⟨"chaos-backend.exe", 8081, "Chaos Backend"⟩),
   ("content-management-service",
     ⟨"content-management-service.exe", 8083, "Content Management Service"⟩)]

/-- Embeds `self.services.get(service_id)` and the membership test
`service_id in self.services`. -/
def lookupService (sid : String) : Option ServiceConfig :=
  services.lookup sid

/-- Embeds `list(self.services.keys())`, in source order. -/
def serviceKeys : List String :=
  services.map Prod.fst

/-- Externally visible side effects issued by the orchestrator:
termination signals (`process.terminate()` / `process.kill()`),
build invocations (`cargo build --release --bin sid`), staging copies
(`shutil.copytree` for configs, `shutil.copy2` for executables),
process launches (`subprocess.Popen`), and health probes
(`requests.get(.../health)`). -/
inductive Event where
  | terminate (pid : Nat)
  | kill (pid : Nat)
  | buildAttempt (sid : String)
  | copyCfg (sid : String)
  | copyExe (sid : String)
  | launch (sid : String)
  | healthCheck (sid : String)
deriving DecidableEq

/-- How a located process reacts to the graceful-then-forceful stop
sequence in `stop_service_by_port` / `stop_service_by_name`:
it exits within the 10s graceful wait (`graceful`), it survives the
graceful wait but dies within the 5s wait after `kill()` (`forced`),
or it survives both waits so the second `process.wait(timeout=5)`
raises `TimeoutExpired`, which escapes to the outer
`except Exception` handler (`survives`). -/
inductive StopBehavior where
  | graceful
  | forced
  | survives
deriving DecidableEq

/-- Outcome of one `subprocess.run(["cargo", "build", ...])` call in
`build_services`: normal completion with an exit code, the 300s
timeout (`subprocess.TimeoutExpired`), or any other exception. -/
inductive BuildOutcome where
  | exited (code : Nat)
  | timedOut
  | raised
deriving DecidableEq

/-- Abstract content of the recursively copied configuration directory
of one service (relative file name paired with file content). -/
abbrev ConfigTree := List (String × String)

/-- Environment of external collaborators: process/network table,
filesystem, build tool, HTTP health endpoints.  Functions keyed by an
executable name take the registry field `exe`; functions keyed by a
service id take the registry key.  `health t p` is the HTTP status
code returned at polling round `t` by `GET localhost:p/health`, with
`none` modelling a connection error or request timeout (any exception
inside `check_service_health`). -/
structure Env where
  listenerOn : Nat → Option Nat
  stopBehavior : Nat → StopBehavior
  procsByName : String → List Nat
  targetDirExists : Bool
  serviceDirExists : Bool
  configsDirExists : Bool
  targetCfgDirOk : Bool
  buildOutcome : String → BuildOutcome
  cfgSource : String → Option ConfigTree
  cfgCopyRaises : String → Bool
  exeSource : String → Bool
  copyRaises : String → Bool
  destStat : String → Option Nat
  exeStaged : String → Bool
  aliveAfterStart : String → Bool
  health : Nat → Nat → Option Nat

/-- Embeds `ServiceUtils.stop_service_by_port`: look for the listener on
`port`; if absent, log and return `True` with no termination call;
otherwise `terminate()`, wait up to 10s, and on timeout `kill()` and
wait up to 5s; if that second wait also times out the exception is
caught by the outer handler and `False` is returned.  The
`service_name` parameter of the source is used only for logging and is
omitted. -/
def stop_service_by_port (env : Env) (port : Nat) : Bool × List Event :=
  match env.listenerOn port with
  | none => (true, [])
  | some pid =>
    match env.stopBehavior pid with
    | StopBehavior.graceful => (true, [Event.terminate pid])
    | StopBehavior.forced => (true, [Event.terminate pid, Event.kill pid])
    | StopBehavior.survives => (false, [Event.terminate pid, Event.kill pid])

/-- The per-process loop body of `ServiceUtils.stop_service_by_name`:
each found process gets the same graceful-then-forceful treatment, and
`success` is forced to `False` for any process that survives. -/
def stopProcs (env : Env) : List Nat → Bool × List Event
  | [] => (true, [])
  | pid :: rest =>
      let r := stopProcs env rest
      match env.stopBehavior pid with
      | StopBehavior.graceful => (r.fst, Event.terminate pid :: r.snd)
      | StopBehavior.forced =>
          (r.fst, Event.terminate pid :: Event.kill pid :: r.snd)
      | StopBehavior.survives =>
          (false, Event.terminate pid :: Event.kill pid :: r.snd)

/-- Embeds `ServiceUtils.stop_service_by_name`: find all processes matching
the executable name; an empty result logs "not running" and returns
`True` with no termination call. -/
def stop_service_by_name (env : Env) (exe : String) : Bool × List Event :=
  stopProcs env (env.procsByName exe)

/-- First loop of `ServiceUtils.stop_all_services`: stop by port,
silently skipping ids not in the registry. -/
def stopPortLoop (env : Env) : List String → Bool × List Event
  | [] => (true, [])
  | sid :: rest =>
      let r := stopPortLoop env rest
      match lookupService sid with
      | none => r
      | some cfg =>
          let s := stop_service_by_port env cfg.port
          (s.fst && r.fst, s.snd ++ r.snd)

/-- Second loop of `ServiceUtils.stop_all_services`: stop by
executable name as backup, again silently skipping unknown ids. -/
def stopNameLoop (env : Env) : List String → Bool × List Event
  | [] => (true, [])
  | sid :: rest =>
      let r := stopNameLoop env rest
      match lookupService sid with
      | none => r
      | some cfg =>
          let s := stop_service_by_name env cfg.exe
          (s.fst && r.fst, s.snd ++ r.snd)

/-- Embeds `ServiceUtils.stop_all_services`: `None` means all registry keys;
port-based stops run first, then name-based stops. -/
def stop_all_services (env : Env) (idsOpt : Option (List String)) :
    Bool × List Event :=
  let ids := idsOpt.getD serviceKeys
  let p := stopPortLoop env ids
  let n := stopNameLoop env ids
  (p.fst && n.fst, p.snd ++ n.snd)

/-- Success of one `cargo build --release --bin sid` invocation in
`build_services`: `result.returncode == 0`.  A timeout or any other
exception is a failure. -/
def buildOne (env : Env) (sid : String) : Bool :=
  match env.buildOutcome sid with
  | BuildOutcome.exited 0 => true
  | _ => false

/-- Per-service loop of `ServiceUtils.build_services`: an unknown id
logs an error and forces `success = False` but the loop continues;
known ids always get a build attempt regardless of earlier
failures. -/
def buildLoop (env : Env) : List String → Bool × List Event
  | [] => (true, [])
  | sid :: rest =>
      let r := buildLoop env rest
      match lookupService sid with
      | none => (false, r.snd)
      | some _ => (buildOne env sid && r.fst, Event.buildAttempt sid :: r.snd)

/-- Embeds `ServiceUtils.build_services`: fails immediately when the cargo
`target/release` directory is missing; otherwise runs the per-service
loop over the requested ids (`None` selects every registry key). -/
def build_services (env : Env) (idsOpt : Option (List String)) :
    Bool × List Event :=
  if env.targetDirExists then
    buildLoop env (idsOpt.getD serviceKeys)
  else (false, [])

/-- Result of `ServiceUtils.copy_config_files`: aggregate success,
the final per-service state of the target configuration directories
(`C:/ChaosWorld/services/configs/<sid>`), and the staging events
issued. -/
structure CfgResult where
  ok : Bool
  tgt : String → Option ConfigTree
  events : List Event

/-- Pointwise update of the per-service target-directory map. -/
def setTree (tgt : String → Option ConfigTree) (sid : String)
    (t : Option ConfigTree) : String → Option ConfigTree :=
  fun s => if s = sid then t else tgt s

/-- Per-service loop of `ServiceUtils.copy_config_files`: unknown ids
log an error and force failure; if the source config directory exists
the target directory is replaced wholesale (`shutil.rmtree` when
present, then `shutil.copytree`, modelled as the target map now
holding exactly the source tree); a raising copy forces failure and
leaves the target state unspecified (modelled as unchanged); a missing
source directory is only a warning and changes nothing. -/
def cfgLoop (env : Env) :
    List String → (String → Option ConfigTree) → CfgResult
  | [], tgt => ⟨true, tgt, []⟩
  | sid :: rest, tgt =>
      match lookupService sid with
      | none =>
          let r := cfgLoop env rest tgt
          ⟨false, r.tgt, r.events⟩
      | some _ =>
          match env.cfgSource sid with
          | some tree =>
              if env.cfgCopyRaises sid then
                let r := cfgLoop env rest tgt
                ⟨false, r.tgt, Event.copyCfg sid :: r.events⟩
              else
                let r := cfgLoop env rest (setTree tgt sid (some tree))
                ⟨r.ok, r.tgt, Event.copyCfg sid :: r.events⟩
          | none => cfgLoop env rest tgt

/-- Embeds `ServiceUtils.copy_config_files`: fails if the source
`services/` directory is missing or the target configs directory can
neither be found nor created; otherwise runs the per-service loop
(`None` selects every registry key).  `tgt0` is the state of the
target config directories before the call. -/
def copy_config_files (env : Env) (idsOpt : Option (List String))
    (tgt0 : String → Option ConfigTree) : CfgResult :=
  if env.configsDirExists then
    if env.targetCfgDirOk then
      cfgLoop env (idsOpt.getD serviceKeys) tgt0
    else ⟨false, tgt0, []⟩
  else ⟨false, tgt0, []⟩

/-- Per-service loop of `ServiceUtils.copy_services`: unknown ids log
an error and force failure; a missing source executable forces
failure with no copy; otherwise `shutil.copy2` runs and then
`dest_path.stat().st_size` is read.  Either call raising (the stat
raises exactly when the destination is absent) is caught and forces
failure; when the stat returns, its size is only logged — the code
performs no non-zero check, so any returned size leaves `success`
unchanged. -/
def copyExeLoop (env : Env) : List String → Bool × List Event
  | [] => (true, [])
  | sid :: rest =>
      let r := copyExeLoop env rest
      match lookupService sid with
      | none => (false, r.snd)
      | some cfg =>
          if env.exeSource cfg.exe then
            if env.copyRaises cfg.exe then (false, Event.copyExe sid :: r.snd)
            else
              match env.destStat cfg.exe with
              | some _ => (r.fst, Event.copyExe sid :: r.snd)
              | none => (false, Event.copyExe sid :: r.snd)
          else (false, r.snd)

/-- Embeds `ServiceUtils.copy_services`: fails immediately when the build
output directory or the deployment directory is missing; otherwise
runs the per-service loop (`None` selects every registry key). -/
def copy_services (env : Env) (idsOpt : Option (List String)) :
    Bool × List Event :=
  if env.targetDirExists then
    if env.serviceDirExists then
      copyExeLoop env (idsOpt.getD serviceKeys)
    else (false, [])
  else (false, [])

/-- Embeds `ServiceUtils.start_service`: unknown id or missing staged
executable fails without launching; otherwise the process is spawned
(`Event.launch`) and, after the 2s startup pause, `process.poll()`
decides success (still running) or failure (already exited). -/
def start_service (env : Env) (sid : String) : Bool × List Event :=
  match lookupService sid with
  | none => (false, [])
  | some cfg =>
      if env.exeStaged cfg.exe then
        if env.aliveAfterStart sid then (true, [Event.launch sid])
        else (false, [Event.launch sid])
      else (false, [])

/-- Whether `start_service` reaches the `subprocess.Popen` call. -/
def launchAttempted (env : Env) (sid : String) : Bool :=
  match lookupService sid with
  | none => false
  | some cfg => env.exeStaged cfg.exe

/-- Shorthand for `(start_service env sid).fst`: the service started and survived
the startup pause. -/
def startOk (env : Env) (sid : String) : Bool :=
  (start_service env sid).fst

/-- The fixed default startup order hard-coded in
`ServiceUtils.start_all_services` for the `service_ids is None`
case. -/
def startOrder : List String :=
  ["user-management", "chaos-backend", "content-management-service",
   "api-gateway"]

/-- The launch loop of `ServiceUtils.start_all_services`: services are
started one at a time in list order, and the loop `break`s after the
first failed start, so nothing after it is launched. -/
def startLoop (env : Env) : List String → Bool × List Event
  | [] => (true, [])
  | sid :: rest =>
      if (start_service env sid).fst then
        ((startLoop env rest).fst,
          (start_service env sid).snd ++ (startLoop env rest).snd)
      else (false, (start_service env sid).snd)

/-- Embeds `ServiceUtils.start_all_services`: `None` selects the fixed
`startOrder`; an explicit list is launched in the order given by the
caller. -/
def start_all_services (env : Env) (idsOpt : Option (List String)) :
    Bool × List Event :=
  startLoop env (idsOpt.getD startOrder)

/-- Embeds `ServiceUtils.check_service_health`: unknown id returns `False`;
otherwise `requests.get(http://localhost:{port}/health, timeout=5)`
must return status code 200; any exception (connection error, request
timeout) is swallowed by the bare `except` and yields `False`. -/
def check_service_health (env : Env) (t : Nat) (sid : String) : Bool :=
  match lookupService sid with
  | none => false
  | some cfg => env.health t cfg.port == some 200

/-- Embeds `ServiceUtils.get_service_status`: probes the health endpoint of
every registry service (not just a requested subset) and returns the
fresh id-to-healthy map plus the probe events. -/
def get_service_status (env : Env) (t : Nat) :
    List (String × Bool) × List Event :=
  (services.map (fun p => (p.fst, check_service_health env t p.fst)),
   services.map (fun p => Event.healthCheck p.fst))

/-- Embeds `status.get(service_id, False)` on the map produced by
`get_service_status`. -/
def statusLookup (st : List (String × Bool)) (sid : String) : Bool :=
  (st.lookup sid).getD false

/-- The all-healthy test of one iteration of
`ServiceUtils.wait_for_services`: with an explicit subset, count the
subset ids that the full status map reports healthy and compare with
the subset size; with `None`, compare `sum(status.values())` with
`len(status)`. -/
def roundHealthy (env : Env) (idsOpt : Option (List String)) (t : Nat) :
    Bool :=
  match idsOpt with
  | some ids =>
      ids.countP (fun sid => statusLookup (get_service_status env t).fst sid)
        == ids.length
  | none =>
      ((get_service_status env t).fst.map Prod.snd).count true
        == (get_service_status env t).fst.length

/-- The polling loop of `ServiceUtils.wait_for_services`, one
2-second round per fuel unit: each round probes every registry
service, succeeds when the all-healthy test of the round passes, and when
the fuel (the timeout window) is exhausted returns `False` instead of
raising. -/
def waitLoop (env : Env) (idsOpt : Option (List String)) :
    Nat → Nat → Bool × List Event
  | 0, _ => (false, [])
  | fuel + 1, t =>
      if roundHealthy env idsOpt t then (true, (get_service_status env t).snd)
      else
        let r := waitLoop env idsOpt fuel (t + 1)
        (r.fst, (get_service_status env t).snd ++ r.snd)

/-- Embeds `ServiceUtils.wait_for_services` with the timeout expressed as the
number of 2-second polling rounds (`rounds = timeout / 2`). -/
def wait_for_services (env : Env) (idsOpt : Option (List String))
    (rounds : Nat) : Bool × List Event :=
  waitLoop env idsOpt rounds 0

/-- Embeds `SimpleDeployer.deploy_all`: stop, optionally build, stage
configs, stage executables, start, then wait for health with a
30-second (15-round) timeout.  Each of the first five stages aborts
the pipeline with `False` on failure; a health-wait failure only logs
a warning, after which the final status display probes every registry
service once more (modelled at round index 15) and the method returns
`True`. -/
def deploy_all (env : Env) (skipBuild : Bool)
    (idsOpt : Option (List String))
    (tgt0 : String → Option ConfigTree) : Bool × List Event :=
  if (stop_all_services env idsOpt).fst then
    if (if skipBuild then true else (build_services env idsOpt).fst) then
      if (copy_config_files env idsOpt tgt0).ok then
        if (copy_services env idsOpt).fst then
          if (start_all_services env idsOpt).fst then
            (true, (stop_all_services env idsOpt).snd
              ++ (if skipBuild then [] else (build_services env idsOpt).snd)
              ++ (copy_config_files env idsOpt tgt0).events
              ++ (copy_services env idsOpt).snd
              ++ (start_all_services env idsOpt).snd
              ++ (wait_for_services env idsOpt 15).snd
              ++ (get_service_status env 15).snd)
          else (false, (stop_all_services env idsOpt).snd
              ++ (if skipBuild then [] else (build_services env idsOpt).snd)
              ++ (copy_config_files env idsOpt tgt0).events
              ++ (copy_services env idsOpt).snd
              ++ (start_all_services env idsOpt).snd)
        else (false, (stop_all_services env idsOpt).snd
              ++ (if skipBuild then [] else (build_services env idsOpt).snd)
              ++ (copy_config_files env idsOpt tgt0).events
              ++ (copy_services env idsOpt).snd)
      else (false, (stop_all_services env idsOpt).snd
              ++ (if skipBuild then [] else (build_services env idsOpt).snd)
              ++ (copy_config_files env idsOpt tgt0).events)
    else (false, (stop_all_services env idsOpt).snd
              ++ (if skipBuild then [] else (build_services env idsOpt).snd))
  else (false, (stop_all_services env idsOpt).snd)

/-- Embeds `SimpleDeployer.restart_all`: note that the source calls
`self.utils.stop_all_services()` with no argument, so the stop stage
always covers every registry service even when an explicit subset was
requested; the start and health-wait stages then use the subset. -/
def restart_all (env : Env) (idsOpt : Option (List String)) :
    Bool × List Event :=
  if (stop_all_services env none).fst then
    if (start_all_services env idsOpt).fst then
      (true, (stop_all_services env none).snd
        ++ (start_all_services env idsOpt).snd
        ++ (wait_for_services env idsOpt 15).snd)
    else (false, (stop_all_services env none).snd
        ++ (start_all_services env idsOpt).snd)
  else (false, (stop_all_services env none).snd)

/-- Environment in which nothing is running and nothing exists on
disk. -/
def envQuiet : Env where
  listenerOn := fun _ => none
  stopBehavior := fun _ => StopBehavior.graceful
  procsByName := fun _ => []
  targetDirExists := false
  serviceDirExists := false
  configsDirExists := false
  targetCfgDirOk := false
  buildOutcome := fun _ => BuildOutcome.raised
  cfgSource := fun _ => none
  cfgCopyRaises := fun _ => false
  exeSource := fun _ => false
  copyRaises := fun _ => false
  destStat := fun _ => none
  exeStaged := fun _ => false
  aliveAfterStart := fun _ => false
  health := fun _ _ => none

/-- Environment where every stage succeeds mechanically but every
executable copy leaves a zero-byte destination. -/
def envZeroCopy : Env where
  listenerOn := fun _ => none
  stopBehavior := fun _ => StopBehavior.graceful
  procsByName := fun _ => []
  targetDirExists := true
  serviceDirExists := true
  configsDirExists := true
  targetCfgDirOk := true
  buildOutcome := fun _ => BuildOutcome.exited 0
  cfgSource := fun _ => none
  cfgCopyRaises := fun _ => false
  exeSource := fun _ => true
  copyRaises := fun _ => false
  destStat := fun _ => some 0
  exeStaged := fun _ => true
  aliveAfterStart := fun _ => true
  health := fun _ _ => none

/-- Environment for the restart scenario: only the chaos-backend
listener (pid 42 on port 8081) is alive, every staged executable
starts fine, and every health endpoint answers 200. -/
def envRestart : Env where
  listenerOn := fun p => if p = 8081 then some 42 else none
  stopBehavior := fun _ => StopBehavior.graceful
  procsByName := fun _ => []
  targetDirExists := true
  serviceDirExists := true
  configsDirExists := true
  targetCfgDirOk := true
  buildOutcome := fun _ => BuildOutcome.exited 0
  cfgSource := fun _ => none
  cfgCopyRaises := fun _ => false
  exeSource := fun _ => true
  copyRaises := fun _ => false
  destStat := fun _ => some 1024
  exeStaged := fun _ => true
  aliveAfterStart := fun _ => true
  health := fun _ _ => some 200

/-- Environment where every pipeline stage succeeds but no health
endpoint ever answers. -/
def envNoHealth : Env where
  listenerOn := fun _ => none
  stopBehavior := fun _ => StopBehavior.graceful
  procsByName := fun _ => []
  targetDirExists := true
  serviceDirExists := true
  configsDirExists := true
  targetCfgDirOk := true
  buildOutcome := fun _ => BuildOutcome.exited 0
  cfgSource := fun _ => none
  cfgCopyRaises := fun _ => false
  exeSource := fun _ => true
  copyRaises := fun _ => false
  destStat := fun _ => some 1024
  exeStaged := fun _ => true
  aliveAfterStart := fun _ => true
  health := fun _ _ => none

/-- Environment where one well-known pid (7, listening on 8080)
survives both the graceful and the forceful stop attempt. -/
def envSurvivor : Env where
  listenerOn := fun p => if p = 8080 then some 7 else none
  stopBehavior := fun _ => StopBehavior.survives
  procsByName := fun _ => []
  targetDirExists := false
  serviceDirExists := false
  configsDirExists := false
  targetCfgDirOk := false
  buildOutcome := fun _ => BuildOutcome.raised
  cfgSource := fun _ => none
  cfgCopyRaises := fun _ => false
  exeSource := fun _ => false
  copyRaises := fun _ => false
  destStat := fun _ => none
  exeStaged := fun _ => false
  aliveAfterStart := fun _ => false
  health := fun _ _ => none

/-- Environment where the api-gateway build fails (exit code 101)
while the chaos-backend build succeeds. -/
def envBuildMix : Env where
  listenerOn := fun _ => none
  stopBehavior := fun _ => StopBehavior.graceful
  procsByName := fun _ => []
  targetDirExists := true
  serviceDirExists := true
  configsDirExists := true
  targetCfgDirOk := true
  buildOutcome := fun sid =>
    if sid = "chaos-backend" then BuildOutcome.exited 0
    else BuildOutcome.exited 101
  cfgSource := fun _ => none
  cfgCopyRaises := fun _ => false
  exeSource := fun _ => true
  copyRaises := fun _ => false
  destStat := fun _ => some 1024
  exeStaged := fun _ => true
  aliveAfterStart := fun _ => true
  health := fun _ _ => none

/-- Environment where every executable is staged but the
chaos-backend process dies during the startup pause. -/
def envStartFail : Env where
  listenerOn := fun _ => none
  stopBehavior := fun _ => StopBehavior.graceful
  procsByName := fun _ => []
  targetDirExists := true
  serviceDirExists := true
  configsDirExists := true
  targetCfgDirOk := true
  buildOutcome := fun _ => BuildOutcome.exited 0
  cfgSource := fun _ => none
  cfgCopyRaises := fun _ => false
  exeSource := fun _ => true
  copyRaises := fun _ => false
  destStat := fun _ => some 1024
  exeStaged := fun _ => true
  aliveAfterStart := fun sid => sid != "chaos-backend"
  health := fun _ _ => none

/-- Environment for configuration staging: only the api-gateway has a
source config tree. -/
def envCfg : Env where
  listenerOn := fun _ => none
  stopBehavior := fun _ => StopBehavior.graceful
  procsByName := fun _ => []
  targetDirExists := true
  serviceDirExists := true
  configsDirExists := true
  targetCfgDirOk := true
  buildOutcome := fun _ => BuildOutcome.exited 0
  cfgSource := fun sid =>
    if sid = "api-gateway" then some [("api-gateway.yaml", "port: 8080")]
    else none
  cfgCopyRaises := fun _ => false
  exeSource := fun _ => true
  copyRaises := fun _ => false
  destStat := fun _ => some 1024
  exeStaged := fun _ => true
  aliveAfterStart := fun _ => true
  health := fun _ _ => none

/-- A successful `copy_services` loop implies, for every requested id,
that the id is registered, the source executable existed, the copy did
not raise, and the destination size probe returned (the destination
file exists) — but says nothing about the size being non-zero. -/
lemma copyExeLoop_success (env : Env) :
    ∀ ids : List String, (copyExeLoop env ids).fst = true →
      ∀ sid ∈ ids, ∃ cfg, lookupService sid = some cfg ∧
        env.exeSource cfg.exe = true ∧ env.copyRaises cfg.exe = false ∧
        ∃ n, env.destStat cfg.exe = some n := by
  intro ids
  induction ids with
  | nil => intro _ sid hmem; exact absurd hmem (List.not_mem_nil sid)
  | cons hd rest ih =>
      intro h sid hmem
      cases hlk : lookupService hd with
      | none => simp [copyExeLoop, hlk] at h
      | some cfg =>
          cases hsrc : env.exeSource cfg.exe with
          | false => simp [copyExeLoop, hlk, hsrc] at h
          | true =>
              cases hcr : env.copyRaises cfg.exe with
              | true => simp [copyExeLoop, hlk, hsrc, hcr] at h
              | false =>
                  cases hds : env.destStat cfg.exe with
                  | none => simp [copyExeLoop, hlk, hsrc, hcr, hds] at h
                  | some n =>
                      have hrest : (copyExeLoop env rest).fst = true := by
                        simpa [copyExeLoop, hlk, hsrc, hcr, hds] using h
                      rcases List.mem_cons.mp hmem with rfl | hmem2
                      · exact ⟨cfg, hlk, hsrc, hcr, n, hds⟩
                      · exact ih hrest sid hmem2

/-- Claim C1, counterexample: with every stage mechanically healthy
but a zero-byte destination left by the copy, `copy_services` still
reports aggregate success, so the claimed mandatory non-empty check
does not exist — the code only reads `dest_path.stat().st_size` for a
log line. -/
theorem copy_zero_size_reported_success :
    (copy_services envZeroCopy (some ["api-gateway"])).fst = true ∧
    envZeroCopy.destStat "api-gateway.exe" = some 0 := by
  exact ⟨by decide, by decide⟩

/-- Claim C1, amended: `copy_services` never reports success for a
requested service when the destination executable is absent after the
copy (a raising copy or a raising size probe marks the service
failed), but the post-copy probe does not compare the size with zero,
so a zero-byte destination is still reported as success. -/
theorem copy_missing_dest_never_success (env : Env) (ids : List String)
    (h : (copy_services env (some ids)).fst = true) :
    ∀ sid ∈ ids, ∃ cfg, lookupService sid = some cfg ∧
      env.exeSource cfg.exe = true ∧ env.copyRaises cfg.exe = false ∧
      ∃ n, env.destStat cfg.exe = some n := by
  have h2 : (copyExeLoop env ids).fst = true := by
    cases h1 : env.targetDirExists with
    | false => simp [copy_services, h1] at h
    | true =>
        cases h3 : env.serviceDirExists with
        | false => simp [copy_services, h1, h3] at h
        | true => simpa [copy_services, h1, h3] using h
  exact copyExeLoop_success env ids h2

theorem copy_missing_dest_never_success_witness :
    ∃ cfg, lookupService "api-gateway" = some cfg ∧
      envZeroCopy.exeSource cfg.exe = true ∧
      envZeroCopy.copyRaises cfg.exe = false ∧
      ∃ n, envZeroCopy.destStat cfg.exe = some n :=
  copy_missing_dest_never_success envZeroCopy ["api-gateway"] (by decide)
    "api-gateway" (by decide)

/-- Claim C2: the code violates the subset-scoping requirement.  With
the explicit subset containing only `api-gateway`, `restart_all` still
reports success while its stop stage terminates pid 42, the listener
of `chaos-backend` (port 8081, outside the subset), because the source
calls `stop_all_services()` with no argument; and its health-wait
stage probes `user-management` (outside the subset), because
`wait_for_services` builds its status map with `get_service_status`,
which queries every registry service. -/
theorem restart_subset_touches_outside_subset :
    (restart_all envRestart (some ["api-gateway"])).fst = true ∧
    Event.terminate 42 ∈ (restart_all envRestart (some ["api-gateway"])).snd ∧
    Event.healthCheck "user-management" ∈
      (restart_all envRestart (some ["api-gateway"])).snd := by
  exact ⟨by decide, by decide, by decide⟩

/-- Claim C3: in `SimpleDeployer.deploy_all` (which has no strict
mode), when the stop, build, config-staging, artifact-staging and
start stages all succeed but the health wait times out with services
still unhealthy, the method still returns overall success — the
timeout only produces a warning log. -/
theorem deploy_health_timeout_still_success (env : Env) (ids : List String)
    (tgt0 : String → Option ConfigTree)
    (hstop : (stop_all_services env (some ids)).fst = true)
    (hbuild : (build_services env (some ids)).fst = true)
    (hcfg : (copy_config_files env (some ids) tgt0).ok = true)
    (hcopy : (copy_services env (some ids)).fst = true)
    (hstart : (start_all_services env (some ids)).fst = true)
    (hwait : (wait_for_services env (some ids) 15).fst = false) :
    (deploy_all env false (some ids) tgt0).fst = true := by
  simp [deploy_all, hstop, hbuild, hcfg, hcopy, hstart]

theorem deploy_health_timeout_still_success_witness :
    (deploy_all envNoHealth false (some ["api-gateway"])
      (fun _ => none)).fst = true :=
  deploy_health_timeout_still_success envNoHealth ["api-gateway"]
    (fun _ => none) (by decide) (by decide) (by decide) (by decide)
    (by decide) (by decide)

/-- Claim C4: when no process listens on the port of the service and no
live process matches its executable name, both stop strategies return
success without issuing a single terminate or kill call — absence of
the target is defined as success. -/
theorem stop_absent_is_success_no_calls (env : Env) (port : Nat)
    (exe : String) (hport : env.listenerOn port = none)
    (hname : env.procsByName exe = []) :
    stop_service_by_port env port = (true, []) ∧
    stop_service_by_name env exe = (true, []) := by
  constructor
  · simp [stop_service_by_port, hport]
  · simp [stop_service_by_name, hname, stopProcs]

theorem stop_absent_is_success_no_calls_witness :
    stop_service_by_port envQuiet 8080 = (true, []) ∧
    stop_service_by_name envQuiet "api-gateway.exe" = (true, []) :=
  stop_absent_is_success_no_calls envQuiet 8080 "api-gateway.exe" rfl rfl

/-- Claim C7: for a located target process the stop operation first
sends `terminate`; a `kill` follows exactly when the process does not
exit within the graceful wait; and the overall result is the failure
value `false` (no exception escapes — the `TimeoutExpired` of the
post-kill wait is caught by the outer handler) precisely when the
process survives both attempts. -/
theorem stop_graceful_then_kill_reports_failure (env : Env)
    (port pid : Nat) (h : env.listenerOn port = some pid) :
    (stop_service_by_port env port).snd =
      Event.terminate pid ::
        (if env.stopBehavior pid = StopBehavior.graceful then []
         else [Event.kill pid]) ∧
    ((stop_service_by_port env port).fst = false ↔
      env.stopBehavior pid = StopBehavior.survives) := by
  cases hb : env.stopBehavior pid <;> simp [stop_service_by_port, h, hb]

theorem stop_graceful_then_kill_reports_failure_witness :
    (stop_service_by_port envSurvivor 8080).snd =
      Event.terminate 7 ::
        (if envSurvivor.stopBehavior 7 = StopBehavior.graceful then []
         else [Event.kill 7]) ∧
    ((stop_service_by_port envSurvivor 8080).fst = false ↔
      envSurvivor.stopBehavior 7 = StopBehavior.survives) :=
  stop_graceful_then_kill_reports_failure envSurvivor 8080 7 rfl

/-- The trace of one `start_service` call: a launch event is emitted
exactly when the `subprocess.Popen` call is reached. -/
lemma start_service_snd (env : Env) (sid : String) :
    (start_service env sid).snd =
      (if launchAttempted env sid then [Event.launch sid] else []) := by
  cases hlk : lookupService sid with
  | none => simp [start_service, launchAttempted, hlk]
  | some cfg =>
      cases hst : env.exeStaged cfg.exe with
      | false => simp [start_service, launchAttempted, hlk, hst]
      | true =>
          cases hal : env.aliveAfterStart sid <;>
            simp [start_service, launchAttempted, hlk, hst, hal]

/-- A successful start emits exactly its own launch event. -/
lemma startOk_snd (env : Env) (sid : String) (h : startOk env sid = true) :
    (start_service env sid).snd = [Event.launch sid] := by
  unfold startOk at h
  cases hlk : lookupService sid with
  | none => simp [start_service, hlk] at h
  | some cfg =>
      cases hst : env.exeStaged cfg.exe with
      | false => simp [start_service, hlk, hst] at h
      | true =>
          cases hal : env.aliveAfterStart sid <;>
            simp [start_service, hlk, hst, hal]

/-- When every start succeeds, the loop launches exactly the given
ids, in the given order. -/
lemma startLoop_all_ok (env : Env) :
    ∀ ids : List String, (∀ s ∈ ids, startOk env s = true) →
      startLoop env ids = (true, ids.map Event.launch) := by
  intro ids
  induction ids with
  | nil => intro _; rfl
  | cons hd rest ih =>
      intro h
      have hhd : startOk env hd = true := h hd (List.mem_cons_self hd rest)
      have hhd2 : (start_service env hd).fst = true := hhd
      have hrest := ih (fun s hs => h s (List.mem_cons_of_mem hd hs))
      simp [startLoop, hhd2, hrest, startOk_snd env hd hhd]

/-- When every start before `y` succeeds and `y` fails, the loop
launches exactly the earlier ids (plus `y` itself when its launch was
attempted before the early-crash check) and nothing after `y`. -/
lemma startLoop_fail_fast (env : Env) :
    ∀ xs : List String, ∀ y : String, ∀ zs : List String,
      (∀ s ∈ xs, startOk env s = true) → startOk env y = false →
      startLoop env (xs ++ y :: zs) =
        (false, xs.map Event.launch ++
          (if launchAttempted env y then [Event.launch y] else [])) := by
  intro xs
  induction xs with
  | nil =>
      intro y zs _ hy
      have hy2 : (start_service env y).fst = false := hy
      simp [startLoop, hy2, start_service_snd]
  | cons hd rest ih =>
      intro y zs h hy
      have hhd : startOk env hd = true := h hd (List.mem_cons_self hd rest)
      have hhd2 : (start_service env hd).fst = true := hhd
      have hrest := ih y zs (fun s hs => h s (List.mem_cons_of_mem hd hs)) hy
      simp [startLoop, hhd2, hrest, startOk_snd env hd hhd]

/-- Claim C5: `start_all_services` launches one service at a time in
exactly the order given by the caller (or, when no subset is given, the fixed
default order with `api-gateway` last); when every start succeeds the
launch trace is exactly the requested ids in order, and after the
first failed start nothing later in the sequence is launched. -/
theorem start_order_and_fail_fast :
    (∀ env : Env, start_all_services env none =
      startLoop env ["user-management", "chaos-backend",
        "content-management-service", "api-gateway"]) ∧
    (∀ env : Env, ∀ ids : List String,
      (∀ s ∈ ids, startOk env s = true) →
      start_all_services env (some ids) = (true, ids.map Event.launch)) ∧
    (∀ env : Env, ∀ xs : List String, ∀ y : String, ∀ zs : List String,
      (∀ s ∈ xs, startOk env s = true) → startOk env y = false →
      start_all_services env (some (xs ++ y :: zs)) =
        (false, xs.map Event.launch ++
          (if launchAttempted env y then [Event.launch y] else []))) := by
  refine ⟨fun env => rfl, ?_, ?_⟩
  · intro env ids h
    simpa [start_all_services] using startLoop_all_ok env ids h
  · intro env xs y zs h hy
    simpa [start_all_services] using startLoop_fail_fast env xs y zs h hy

theorem start_order_and_fail_fast_witness :
    start_all_services envStartFail
      (some (["user-management"] ++ "chaos-backend" :: ["api-gateway"])) =
      (false, ["user-management"].map Event.launch ++
        (if launchAttempted envStartFail "chaos-backend"
         then [Event.launch "chaos-backend"] else [])) :=
  start_order_and_fail_fast.2.2 envStartFail ["user-management"]
    "chaos-backend" ["api-gateway"] (by decide) (by decide)

/-- One cargo invocation succeeds exactly when it ran to completion
with exit code 0. -/
lemma buildOne_eq_true (env : Env) (sid : String) :
    buildOne env sid = true ↔
      env.buildOutcome sid = BuildOutcome.exited 0 := by
  cases h : env.buildOutcome sid with
  | exited c => cases c <;> simp [buildOne, h]
  | timedOut => simp [buildOne, h]
  | raised => simp [buildOne, h]

/-- Every registered requested service gets a build attempt, even when
other services in the list fail. -/
lemma buildLoop_attempts (env : Env) :
    ∀ ids : List String, ∀ sid ∈ ids, lookupService sid ≠ none →
      Event.buildAttempt sid ∈ (buildLoop env ids).snd := by
  intro ids
  induction ids with
  | nil => intro sid h _; exact absurd h (List.not_mem_nil sid)
  | cons hd rest ih =>
      intro sid hmem hk
      rcases List.mem_cons.mp hmem with rfl | hmem2
      · cases hlk : lookupService sid with
        | none => exact absurd hlk hk
        | some cfg => simp [buildLoop, hlk]
      · cases hlk : lookupService hd with
        | none => simpa [buildLoop, hlk] using ih sid hmem2 hk
        | some cfg =>
            have := ih sid hmem2 hk
            simp [buildLoop, hlk]
            exact Or.inr this

/-- The aggregate build result is success exactly when every requested
(and registered) service ran a build that exited with status zero. -/
lemma buildLoop_success_iff (env : Env) :
    ∀ ids : List String, (∀ sid ∈ ids, lookupService sid ≠ none) →
      ((buildLoop env ids).fst = true ↔
        ∀ sid ∈ ids, env.buildOutcome sid = BuildOutcome.exited 0) := by
  intro ids
  induction ids with
  | nil => intro _; simp [buildLoop]
  | cons hd rest ih =>
      intro h
      have hhd := h hd (List.mem_cons_self hd rest)
      cases hlk : lookupService hd with
      | none => exact absurd hlk hhd
      | some cfg =>
          have hrest := ih (fun s hs => h s (List.mem_cons_of_mem hd hs))
          simp [buildLoop, hlk, Bool.and_eq_true, buildOne_eq_true, hrest,
            List.forall_mem_cons]

/-- Every event issued by the stop-by-name process loop is a terminate
or a kill. -/
lemma stopProcs_events (env : Env) :
    ∀ pids : List Nat, ∀ e ∈ (stopProcs env pids).snd,
      (∃ p, e = Event.terminate p) ∨ ∃ p, e = Event.kill p := by
  intro pids
  induction pids with
  | nil => intro e h; exact absurd h (List.not_mem_nil e)
  | cons pid rest ih =>
      intro e h
      cases hb : env.stopBehavior pid with
      | graceful =>
          simp [stopProcs, hb] at h
          rcases h with rfl | h
          · exact Or.inl ⟨pid, rfl⟩
          · exact ih e h
      | forced =>
          simp [stopProcs, hb] at h
          rcases h with rfl | rfl | h
          · exact Or.inl ⟨pid, rfl⟩
          · exact Or.inr ⟨pid, rfl⟩
          · exact ih e h
      | survives =>
          simp [stopProcs, hb] at h
          rcases h with rfl | rfl | h
          · exact Or.inl ⟨pid, rfl⟩
          · exact Or.inr ⟨pid, rfl⟩
          · exact ih e h

/-- Every event issued by a port-based stop is a terminate or a
kill. -/
lemma stop_by_port_events (env : Env) (port : Nat) :
    ∀ e ∈ (stop_service_by_port env port).snd,
      (∃ p, e = Event.terminate p) ∨ ∃ p, e = Event.kill p := by
  intro e h
  cases hl : env.listenerOn port with
  | none => simp [stop_service_by_port, hl] at h
  | some pid =>
      cases hb : env.stopBehavior pid with
      | graceful =>
          simp [stop_service_by_port, hl, hb] at h
          exact Or.inl ⟨pid, h⟩
      | forced =>
          simp [stop_service_by_port, hl, hb] at h
          rcases h with rfl | rfl
          · exact Or.inl ⟨pid, rfl⟩
          · exact Or.inr ⟨pid, rfl⟩
      | survives =>
          simp [stop_service_by_port, hl, hb] at h
          rcases h with rfl | rfl
          · exact Or.inl ⟨pid, rfl⟩
          · exact Or.inr ⟨pid, rfl⟩

/-- Every event issued by the port-based stop loop is a terminate or a
kill. -/
lemma stopPortLoop_events (env : Env) :
    ∀ ids : List String, ∀ e ∈ (stopPortLoop env ids).snd,
      (∃ p, e = Event.terminate p) ∨ ∃ p, e = Event.kill p := by
  intro ids
  induction ids with
  | nil => intro e h; exact absurd h (List.not_mem_nil e)
  | cons hd rest ih =>
      intro e h
      cases hlk : lookupService hd with
      | none => exact ih e (by simpa [stopPortLoop, hlk] using h)
      | some cfg =>
          simp [stopPortLoop, hlk] at h
          rcases h with h | h
          · exact stop_by_port_events env cfg.port e h
          · exact ih e h

/-- Every event issued by the name-based stop loop is a terminate or a
kill. -/
lemma stopNameLoop_events (env : Env) :
    ∀ ids : List String, ∀ e ∈ (stopNameLoop env ids).snd,
      (∃ p, e = Event.terminate p) ∨ ∃ p, e = Event.kill p := by
  intro ids
  induction ids with
  | nil => intro e h; exact absurd h (List.not_mem_nil e)
  | cons hd rest ih =>
      intro e h
      cases hlk : lookupService hd with
      | none => exact ih e (by simpa [stopNameLoop, hlk] using h)
      | some cfg =>
          simp [stopNameLoop, hlk] at h
          rcases h with h | h
          · exact stopProcs_events env (env.procsByName cfg.exe) e h
          · exact ih e h

/-- Every event issued by `stop_all_services` is a terminate or a
kill. -/
lemma stop_all_events (env : Env) (idsOpt : Option (List String)) :
    ∀ e ∈ (stop_all_services env idsOpt).snd,
      (∃ p, e = Event.terminate p) ∨ ∃ p, e = Event.kill p := by
  intro e h
  simp [stop_all_services] at h
  rcases h with h | h
  · exact stopPortLoop_events env _ e h
  · exact stopNameLoop_events env _ e h

/-- Every event issued by the build loop is a build attempt. -/
lemma buildLoop_events (env : Env) :
    ∀ ids : List String, ∀ e ∈ (buildLoop env ids).snd,
      ∃ s, e = Event.buildAttempt s := by
  intro ids
  induction ids with
  | nil => intro e h; exact absurd h (List.not_mem_nil e)
  | cons hd rest ih =>
      intro e h
      cases hlk : lookupService hd with
      | none => exact ih e (by simpa [buildLoop, hlk] using h)
      | some cfg =>
          simp [buildLoop, hlk] at h
          rcases h with rfl | h
          · exact ⟨hd, rfl⟩
          · exact ih e h

/-- Every event issued by `build_services` is a build attempt. -/
lemma build_services_events (env : Env) (idsOpt : Option (List String)) :
    ∀ e ∈ (build_services env idsOpt).snd,
      ∃ s, e = Event.buildAttempt s := by
  intro e h
  cases ht : env.targetDirExists with
  | false => simp [build_services, ht] at h
  | true => exact buildLoop_events env _ e (by simpa [build_services, ht] using h)

/-- Claim C6: `build_services` attempts every remaining registered
service even after one build fails (best-effort), its aggregate result
is success exactly when the build of every requested service exited
with status zero, and a failed build stage makes `deploy_all` abort
before the staging and start stages — the trace of the failed run
contains no
config-staging, artifact-staging, or launch event. -/
theorem build_best_effort_and_abort :
    (∀ env : Env, ∀ ids : List String, env.targetDirExists = true →
      ∀ sid ∈ ids, lookupService sid ≠ none →
        Event.buildAttempt sid ∈ (build_services env (some ids)).snd) ∧
    (∀ env : Env, ∀ ids : List String, env.targetDirExists = true →
      (∀ sid ∈ ids, lookupService sid ≠ none) →
      ((build_services env (some ids)).fst = true ↔
        ∀ sid ∈ ids, env.buildOutcome sid = BuildOutcome.exited 0)) ∧
    (∀ env : Env, ∀ ids : List String,
      ∀ tgt0 : String → Option ConfigTree,
      (build_services env (some ids)).fst = false →
      (deploy_all env false (some ids) tgt0).fst = false ∧
      ∀ sid : String,
        Event.copyCfg sid ∉ (deploy_all env false (some ids) tgt0).snd ∧
        Event.copyExe sid ∉ (deploy_all env false (some ids) tgt0).snd ∧
        Event.launch sid ∉ (deploy_all env false (some ids) tgt0).snd) := by
  refine ⟨?_, ?_, ?_⟩
  · intro env ids ht sid hmem hk
    simpa [build_services, ht] using buildLoop_attempts env ids sid hmem hk
  · intro env ids ht hk
    simpa [build_services, ht] using buildLoop_success_iff env ids hk
  · intro env ids tgt0 hb
    cases hs : (stop_all_services env (some ids)).fst with
    | false =>
        refine ⟨by simp [deploy_all, hs], ?_⟩
        intro sid
        refine ⟨?_, ?_, ?_⟩ <;>
          · intro hmem
            rw [show (deploy_all env false (some ids) tgt0).snd =
                (stop_all_services env (some ids)).snd by
              simp [deploy_all, hs]] at hmem
            rcases stop_all_events env (some ids) _ hmem with ⟨p, hp⟩ | ⟨p, hp⟩
              <;> simp at hp
    | true =>
        refine ⟨by simp [deploy_all, hs, hb], ?_⟩
        intro sid
        refine ⟨?_, ?_, ?_⟩ <;>
          · intro hmem
            rw [show (deploy_all env false (some ids) tgt0).snd =
                (stop_all_services env (some ids)).snd
                  ++ (build_services env (some ids)).snd by
              simp [deploy_all, hs, hb]] at hmem
            rcases List.mem_append.mp hmem with h2 | h2
            · rcases stop_all_events env (some ids) _ h2 with ⟨p, hp⟩ | ⟨p, hp⟩
                <;> simp at hp
            · rcases build_services_events env (some ids) _ h2 with ⟨s, hp⟩
              simp at hp

theorem build_best_effort_and_abort_witness :
    Event.buildAttempt "chaos-backend" ∈
      (build_services envBuildMix
        (some ["api-gateway", "chaos-backend"])).snd :=
  build_best_effort_and_abort.1 envBuildMix ["api-gateway", "chaos-backend"]
    (by decide) "chaos-backend" (by decide) (by decide)

/-- Looking a key up in the status map built by mapping a predicate
over the registry gives the value of the predicate exactly when the
key is
registered. -/
lemma lookup_map_status (f : String → Bool) :
    ∀ (l : List (String × ServiceConfig)) (sid : String),
      (l.map (fun p => (p.fst, f p.fst))).lookup sid =
        (l.lookup sid).map (fun _ => f sid) := by
  intro l
  induction l with
  | nil => intro sid; rfl
  | cons hd rest ih =>
      intro sid
      obtain ⟨k, v⟩ := hd
      cases hbeq : sid == k with
      | true =>
          have hk : sid = k := eq_of_beq hbeq
          subst hk
          simp [List.lookup]
      | false => simp [List.lookup, hbeq, ih]

/-- Evaluating `status.get(sid, False)` on the fresh status map equals the health
check for registered ids and `False` otherwise. -/
lemma statusLookup_spec (env : Env) (t : Nat) (sid : String) :
    statusLookup (get_service_status env t).fst sid =
      match lookupService sid with
      | none => false
      | some _ => check_service_health env t sid := by
  unfold statusLookup get_service_status lookupService
  rw [lookup_map_status (check_service_health env t) services sid]
  cases h : services.lookup sid <;> simp [h]

/-- The polling loop succeeds exactly when some round within the fuel
window passes the all-healthy test. -/
lemma waitLoop_true_iff (env : Env) (idsOpt : Option (List String)) :
    ∀ fuel t0 : Nat, (waitLoop env idsOpt fuel t0).fst = true ↔
      ∃ k, k < fuel ∧ roundHealthy env idsOpt (t0 + k) = true := by
  intro fuel
  induction fuel with
  | zero => intro t0; simp [waitLoop]
  | succ n ih =>
      intro t0
      cases hr : roundHealthy env idsOpt t0 with
      | true =>
          constructor
          · intro _; exact ⟨0, Nat.succ_pos n, by simpa using hr⟩
          · intro _; simp [waitLoop, hr]
      | false =>
          constructor
          · intro h
            have h2 : (waitLoop env idsOpt n (t0 + 1)).fst = true := by
              simpa [waitLoop, hr] using h
            rcases (ih (t0 + 1)).mp h2 with ⟨k, hk, hh⟩
            refine ⟨k + 1, Nat.succ_lt_succ hk, ?_⟩
            have he : t0 + 1 + k = t0 + (k + 1) := by omega
            rwa [he] at hh
          · rintro ⟨k, hk, hh⟩
            cases k with
            | zero =>
                rw [Nat.add_zero] at hh
                rw [hr] at hh
                cases hh
            | succ m =>
                have hm : m < n := Nat.lt_of_succ_lt_succ hk
                have he : t0 + (m + 1) = t0 + 1 + m := by omega
                rw [he] at hh
                have h2 := (ih (t0 + 1)).mpr ⟨m, hm, hh⟩
                simpa [waitLoop, hr] using h2

/-- With an explicit subset of registered ids, the all-healthy test of
one round passes exactly when the health check of every subset member
passes. -/
lemma roundHealthy_subset_iff (env : Env) (ids : List String) (t : Nat)
    (h : ∀ sid ∈ ids, lookupService sid ≠ none) :
    roundHealthy env (some ids) t = true ↔
      ∀ sid ∈ ids, check_service_health env t sid = true := by
  have hpt : ∀ sid ∈ ids,
      (statusLookup (get_service_status env t).fst sid = true ↔
        check_service_health env t sid = true) := by
    intro sid hmem
    rw [statusLookup_spec]
    cases hlk : lookupService sid with
    | none => exact absurd hlk (h sid hmem)
    | some cfg => simp
  have hcnt : ids.countP
      (fun sid => statusLookup (get_service_status env t).fst sid) =
        ids.countP (fun sid => check_service_health env t sid) :=
    List.countP_congr hpt
  unfold roundHealthy
  rw [beq_iff_eq, hcnt]
  exact List.countP_eq_length

/-- Claim C8: the health check of a registered service reports healthy
exactly when the HTTP GET to its health endpoint returns status 200
within the request timeout (connection errors, request timeouts and
non-200 statuses — all modelled by `env.health` not being
`some 200` — yield not-healthy, and the embedding is total, so nothing
raises); and the health-wait loop over a registered subset succeeds
exactly when some polling round within the deadline window finds every
target healthy — otherwise, after the deadline, it returns `false`
rather than raising. -/
theorem health_check_iff_and_wait_false :
    (∀ env : Env, ∀ t : Nat, ∀ sid : String, ∀ cfg : ServiceConfig,
      lookupService sid = some cfg →
      (check_service_health env t sid = true ↔
        env.health t cfg.port = some 200)) ∧
    (∀ env : Env, ∀ ids : List String, ∀ rounds : Nat,
      (∀ sid ∈ ids, lookupService sid ≠ none) →
      ((wait_for_services env (some ids) rounds).fst = true ↔
        ∃ k, k < rounds ∧
          ∀ sid ∈ ids, check_service_health env k sid = true)) := by
  constructor
  · intro env t sid cfg hlk
    simp [check_service_health, hlk]
  · intro env ids rounds h
    unfold wait_for_services
    rw [waitLoop_true_iff]
    constructor
    · rintro ⟨k, hk, hh⟩
      refine ⟨k, hk, ?_⟩
      intro sid hsid
      have h2 := (roundHealthy_subset_iff env ids (0 + k) h).mp hh sid hsid
      simpa [Nat.zero_add] using h2
    · rintro ⟨k, hk, hh⟩
      refine ⟨k, hk, (roundHealthy_subset_iff env ids (0 + k) h).mpr ?_⟩
      simpa [Nat.zero_add] using hh

theorem health_check_iff_and_wait_false_witness :
    check_service_health envNoHealth 0 "api-gateway" = true ↔
      envNoHealth.health 0 8080 = some 200 :=
  health_check_iff_and_wait_false.1 envNoHealth 0 "api-gateway"
    ⟨"api-gateway.exe", 8080, "API Gateway"⟩ (by decide)

/-- The config-staging loop never touches the target directory of a
service that is not in the requested list. -/
lemma cfgLoop_frame (env : Env) :
    ∀ ids : List String, ∀ tgt : String → Option ConfigTree,
      ∀ sid : String, sid ∉ ids →
      (cfgLoop env ids tgt).tgt sid = tgt sid := by
  intro ids
  induction ids with
  | nil => intro tgt sid _; rfl
  | cons hd rest ih =>
      intro tgt sid hmem
      have hne : sid ≠ hd := fun h => hmem (h ▸ List.mem_cons_self hd rest)
      have hrest : sid ∉ rest := fun h => hmem (List.mem_cons_of_mem hd h)
      cases hlk : lookupService hd with
      | none => simpa [cfgLoop, hlk] using ih tgt sid hrest
      | some cfg =>
          cases hsrc : env.cfgSource hd with
          | none => simpa [cfgLoop, hlk, hsrc] using ih tgt sid hrest
          | some tree =>
              cases hcr : env.cfgCopyRaises hd with
              | true => simpa [cfgLoop, hlk, hsrc, hcr] using ih tgt sid hrest
              | false =>
                  have h2 := ih (setTree tgt hd (some tree)) sid hrest
                  simp [cfgLoop, hlk, hsrc, hcr, h2, setTree, hne]

/-- Behaviour of the config-staging loop over registered,
non-raising, duplicate-free ids: aggregate success; each service with
a source tree ends with its target directory holding exactly that tree
(full replace, independent of the previous target state); each service
without a source tree is skipped, leaving its target unchanged. -/
lemma cfgLoop_spec (env : Env) :
    ∀ ids : List String, ∀ tgt : String → Option ConfigTree,
      (∀ sid ∈ ids, lookupService sid ≠ none) →
      (∀ sid ∈ ids, env.cfgCopyRaises sid = false) →
      ids.Nodup →
      (cfgLoop env ids tgt).ok = true ∧
      (∀ sid ∈ ids, ∀ tr, env.cfgSource sid = some tr →
        (cfgLoop env ids tgt).tgt sid = some tr) ∧
      (∀ sid ∈ ids, env.cfgSource sid = none →
        (cfgLoop env ids tgt).tgt sid = tgt sid) := by
  intro ids
  induction ids with
  | nil => intro tgt _ _ _; exact ⟨rfl, by simp, by simp⟩
  | cons hd rest ih =>
      intro tgt hk hcr hnd
      have hkhd := hk hd (List.mem_cons_self hd rest)
      have hcrhd := hcr hd (List.mem_cons_self hd rest)
      have hndr : rest.Nodup := (List.nodup_cons.mp hnd).2
      have hhd_not : hd ∉ rest := (List.nodup_cons.mp hnd).1
      have hk2 : ∀ s ∈ rest, lookupService s ≠ none :=
        fun s hs => hk s (List.mem_cons_of_mem hd hs)
      have hcr2 : ∀ s ∈ rest, env.cfgCopyRaises s = false :=
        fun s hs => hcr s (List.mem_cons_of_mem hd hs)
      cases hlk : lookupService hd with
      | none => exact absurd hlk hkhd
      | some cfg =>
          cases hsrc : env.cfgSource hd with
          | none =>
              obtain ⟨ih1, ih2, ih3⟩ := ih tgt hk2 hcr2 hndr
              refine ⟨by simpa [cfgLoop, hlk, hsrc] using ih1, ?_, ?_⟩
              · intro sid hmem tr htr
                rcases List.mem_cons.mp hmem with rfl | hmem2
                · rw [htr] at hsrc; cases hsrc
                · simpa [cfgLoop, hlk, hsrc] using ih2 sid hmem2 tr htr
              · intro sid hmem hnone
                rcases List.mem_cons.mp hmem with rfl | hmem2
                · simpa [cfgLoop, hlk, hsrc]
                    using cfgLoop_frame env rest tgt sid hhd_not
                · simpa [cfgLoop, hlk, hsrc] using ih3 sid hmem2 hnone
          | some tree =>
              obtain ⟨ih1, ih2, ih3⟩ :=
                ih (setTree tgt hd (some tree)) hk2 hcr2 hndr
              refine ⟨by simpa [cfgLoop, hlk, hsrc, hcrhd] using ih1, ?_, ?_⟩
              · intro sid hmem tr htr
                rcases List.mem_cons.mp hmem with rfl | hmem2
                · rw [hsrc] at htr
                  injection htr with htr2
                  subst htr2
                  have hfr := cfgLoop_frame env rest
                    (setTree tgt sid (some tree)) sid hhd_not
                  simp [cfgLoop, hlk, hsrc, hcrhd, hfr, setTree]
                · simpa [cfgLoop, hlk, hsrc, hcrhd] using ih2 sid hmem2 tr htr
              · intro sid hmem hnone
                rcases List.mem_cons.mp hmem with rfl | hmem2
                · rw [hnone] at hsrc; cases hsrc
                · have h3 := ih3 sid hmem2 hnone
                  have hne : sid ≠ hd := fun he => hhd_not (he ▸ hmem2)
                  simp [cfgLoop, hlk, hsrc, hcrhd] at h3 ⊢
                  rw [h3]
                  simp [setTree, hne]

/-- Claim C9: for registered, duplicate-free requested ids whose
copies do not raise, configuration staging succeeds; every service
with an existing source config directory ends with its target
directory holding exactly the source tree (remove-then-copy, a full
replace independent of the previous target contents); and every
service without a source config directory is skipped — its target is
untouched and the aggregate result is still success. -/
theorem config_staging_full_replace_or_skip (env : Env)
    (ids : List String) (tgt0 : String → Option ConfigTree)
    (hdir : env.configsDirExists = true)
    (htgt : env.targetCfgDirOk = true)
    (hk : ∀ sid ∈ ids, lookupService sid ≠ none)
    (hcr : ∀ sid ∈ ids, env.cfgCopyRaises sid = false)
    (hnd : ids.Nodup) :
    (copy_config_files env (some ids) tgt0).ok = true ∧
    (∀ sid ∈ ids, ∀ tr, env.cfgSource sid = some tr →
      (copy_config_files env (some ids) tgt0).tgt sid = some tr) ∧
    (∀ sid ∈ ids, env.cfgSource sid = none →
      (copy_config_files env (some ids) tgt0).tgt sid = tgt0 sid) := by
  have h := cfgLoop_spec env ids tgt0 hk hcr hnd
  simpa [copy_config_files, hdir, htgt] using h

theorem config_staging_full_replace_or_skip_witness :
    (copy_config_files envCfg (some ["api-gateway", "user-management"])
      (fun _ => some [("stale.yaml", "old")])).ok = true ∧
    (∀ sid ∈ ["api-gateway", "user-management"],
      ∀ tr, envCfg.cfgSource sid = some tr →
      (copy_config_files envCfg (some ["api-gateway", "user-management"])
        (fun _ => some [("stale.yaml", "old")])).tgt sid = some tr) ∧
    (∀ sid ∈ ["api-gateway", "user-management"],
      envCfg.cfgSource sid = none →
      (copy_config_files envCfg (some ["api-gateway", "user-management"])
        (fun _ => some [("stale.yaml", "old")])).tgt sid
        = (fun _ : String => some [("stale.yaml", "old")]) sid) :=
  config_staging_full_replace_or_skip envCfg
    ["api-gateway", "user-management"]
    (fun _ => some [("stale.yaml", "old")]) rfl rfl (by decide) (by decide)
    (by decide)

/-- Claim C10: unknown service ids are handled asymmetrically.
`stop_all_services` silently skips an unregistered id — a request
consisting only of unknown ids succeeds with no termination call, and
prepending an unknown id changes neither the result nor the trace —
whereas `build_services`, `copy_config_files` and `copy_services` each
force their aggregate result to failure on an unknown id while still
processing the remaining ids (their traces are unchanged). -/
theorem unknown_service_id_asymmetry (env : Env) (bad : String)
    (ids : List String) (tgt0 : String → Option ConfigTree)
    (hbad : lookupService bad = none) :
    stop_all_services env (some [bad]) = (true, []) ∧
    stop_all_services env (some (bad :: ids)) =
      stop_all_services env (some ids) ∧
    (build_services env (some (bad :: ids))).fst = false ∧
    (build_services env (some (bad :: ids))).snd =
      (build_services env (some ids)).snd ∧
    (copy_config_files env (some (bad :: ids)) tgt0).ok = false ∧
    (copy_config_files env (some (bad :: ids)) tgt0).events =
      (copy_config_files env (some ids) tgt0).events ∧
    (copy_services env (some (bad :: ids))).fst = false ∧
    (copy_services env (some (bad :: ids))).snd =
      (copy_services env (some ids)).snd := by
  refine ⟨?_, ?_, ?_, ?_, ?_, ?_, ?_, ?_⟩
  · simp [stop_all_services, stopPortLoop, stopNameLoop, hbad]
  · simp [stop_all_services, stopPortLoop, stopNameLoop, hbad]
  · cases ht : env.targetDirExists <;>
      simp [build_services, ht, buildLoop, hbad]
  · cases ht : env.targetDirExists <;>
      simp [build_services, ht, buildLoop, hbad]
  · cases hc : env.configsDirExists <;>
      cases ho : env.targetCfgDirOk <;>
      simp [copy_config_files, hc, ho, cfgLoop, hbad]
  · cases hc : env.configsDirExists <;>
      cases ho : env.targetCfgDirOk <;>
      simp [copy_config_files, hc, ho, cfgLoop, hbad]
  · cases ht : env.targetDirExists <;>
      cases hs : env.serviceDirExists <;>
      simp [copy_services, ht, hs, copyExeLoop, hbad]
  · cases ht : env.targetDirExists <;>
      cases hs : env.serviceDirExists <;>
      simp [copy_services, ht, hs, copyExeLoop, hbad]

theorem unknown_service_id_asymmetry_witness :
    stop_all_services envQuiet (some ["nope"]) = (true, []) ∧
    stop_all_services envQuiet (some ("nope" :: [])) =
      stop_all_services envQuiet (some []) ∧
    (build_services envQuiet (some ("nope" :: []))).fst = false ∧
    (build_services envQuiet (some ("nope" :: []))).snd =
      (build_services envQuiet (some [])).snd ∧
    (copy_config_files envQuiet (some ("nope" :: []))
      (fun _ => none)).ok = false ∧
    (copy_config_files envQuiet (some ("nope" :: []))
      (fun _ => none)).events =
      (copy_config_files envQuiet (some []) (fun _ => none)).events ∧
    (copy_services envQuiet (some ("nope" :: []))).fst = false ∧
    (copy_services envQuiet (some ("nope" :: []))).snd =
      (copy_services envQuiet (some [])).snd :=
  unknown_service_id_asymmetry envQuiet "nope" [] (fun _ => none)
    (by decide)
